import Mathlib

/-
Verification of the AI-based disaster early-warning pipeline.

The development shallowly embeds the core pipeline of the repository:
  backend/weather_api.py  (weather fetcher),
  backend/predictor.py    (feature synthesizer, risk classifier adapter,
                           risk descriptor mapper, model loading),
  frontend/translations.py (localized risk bundles),
  app.py                  (flood-only dashboard flow: load_model, main).

Python floats are embedded as rationals (ℚ); the stochastic draws of the
feature synthesizer (np.random.uniform / normal / randint) are passed in
explicitly as named draw records so that theorems can quantify over all
outcomes; the current wall-clock month (datetime.now().month) is passed as
an explicit parameter.  Fallible code returns Option.
-/

/-- Normalized weather record produced by get_weather_data
(backend/weather_api.py): the dict with keys city, temperature, humidity,
pressure, wind_speed, rainfall_1h, description, icon. -/
structure WeatherObservation where
  city : String
  temperature : ℚ
  humidity : ℚ
  pressure : ℚ
  wind_speed : ℚ
  rainfall_1h : ℚ
  description : String
  icon : String
deriving DecidableEq

/-- Outcome of the single outbound HTTP call made by get_weather_data.
`status` is the HTTP status code; each payload field is `none` when the
corresponding key path is absent from the provider JSON (accessing a
missing key raises in Python and is caught, yielding None).  A `none`
at the level of `Option WeatherResponse` models a network error, timeout
or any other raised exception before a response is available. -/
structure WeatherResponse where
  status : Nat
  name : Option String
  main_temp : Option ℚ
  main_humidity : Option ℚ
  main_pressure : Option ℚ
  wind_speed : Option ℚ
  rain_1h : Option ℚ
  weather0_description : Option String
  weather0_icon : Option String
deriving DecidableEq

/-- backend/weather_api.py, get_weather_data: one attempt, non-200 status
returns None, every missing required key path raises and is caught as None;
`rain.1h` is optional with default 0; wind speed is converted from m/s to
km/h by multiplying with 3.6. -/
def get_weather_data (resp : Option WeatherResponse) : Option WeatherObservation :=
  match resp with
  | none => none
  | some r =>
    if r.status ≠ 200 then none
    else
      match r.name, r.main_temp, r.main_humidity, r.main_pressure, r.wind_speed,
            r.weather0_description, r.weather0_icon with
      | some n, some t, some h, some p, some ws, some de, some ic =>
        some { city := n, temperature := t, humidity := h, pressure := p,
               wind_speed := ws * 3.6, rainfall_1h := r.rain_1h.getD 0,
               description := de, icon := ic }
      | _, _, _, _, _, _, _ => none

/-- The Python call round(x, 2): round to the nearest multiple of 1/100.  (Python
uses round-half-to-even on binary floats; for the range properties proved
here only monotonicity and exactness on multiples of 1/100 matter.) -/
def round2 (x : ℚ) : ℚ := ((round (x * 100) : ℤ) : ℚ) / 100

theorem round_mono_rat {x y : ℚ} (h : x ≤ y) : round x ≤ round y := by
  rw [round_eq, round_eq]
  exact Int.floor_le_floor (by linarith)

theorem round2_nonneg {x : ℚ} (h : 0 ≤ x) : 0 ≤ round2 x := by
  unfold round2
  have h1 : round ((0 : ℚ)) ≤ round (x * 100) := round_mono_rat (by linarith)
  rw [round_zero] at h1
  have h2 : (0 : ℚ) ≤ ((round (x * 100) : ℤ) : ℚ) := by exact_mod_cast h1
  linarith

theorem round2_le_hundred {x : ℚ} (h : x ≤ 100) : round2 x ≤ 100 := by
  unfold round2
  have h1 : round (x * 100) ≤ round ((10000 : ℚ)) := round_mono_rat (by linarith)
  have h2 : round ((10000 : ℚ)) = 10000 := by
    rw [round_eq]
    norm_num
  rw [h2] at h1
  have h3 : ((round (x * 100) : ℤ) : ℚ) ≤ 10000 := by exact_mod_cast h1
  linarith

/-- Outcomes of the random draws made by transform_to_features_flood, in
the order they occur in backend/predictor.py: np.random.uniform(8, 15),
np.random.uniform(20, 50), np.random.uniform(-1, 2), np.random.normal(0, 5),
np.random.uniform(50, 300), np.random.uniform(3, 7), np.random.uniform(5, 8). -/
structure FloodDraws where
  u_rain : ℚ
  u_norain : ℚ
  u_river : ℚ
  n_soil : ℚ
  u_elev : ℚ
  u_drain : ℚ
  u_land : ℚ
deriving DecidableEq

/-- Outcomes of the random draws made by transform_to_features_cyclone:
np.random.uniform(8, 15), np.random.uniform(10, 80),
np.random.uniform(10, 200), np.random.uniform(10, 25),
np.random.uniform(-2, 2), np.random.uniform(30, 90), np.random.uniform(5, 50). -/
structure CycloneDraws where
  u_rain : ℚ
  u_norain : ℚ
  u_dist : ℚ
  u_move : ℚ
  u_sst : ℚ
  u_ohc : ℚ
  u_elev : ℚ
deriving DecidableEq

/-- Outcomes of the random draws made by transform_to_features_heatwave:
np.random.uniform(0, 4), np.random.randint(1, 5), np.random.uniform(10, 40),
np.random.uniform(0, 30), np.random.uniform(5, 10). -/
structure HeatwaveDraws where
  u_maxt : ℚ
  n_hotdays : ℕ
  u_soil : ℚ
  u_cloud : ℚ
  u_uhi : ℚ
deriving DecidableEq

/-- A FeatureVector: the ordered dict of named numeric fields returned by
the transform functions. -/
def FeatureVector : Type := List (String × ℚ)

/-- Dict access features[name] on a FeatureVector. -/
def fvGet (fv : FeatureVector) (k : String) : ℚ :=
  (List.lookup k fv).getD 0

/-- backend/predictor.py, transform_to_features_flood.  `month` is
datetime.now().month. -/
def transform_to_features_flood (w : WeatherObservation) (d : FloodDraws)
    (month : ℕ) : FeatureVector :=
  let rainfall_1h := w.rainfall_1h
  let rainfall_estimate0 := rainfall_1h * d.u_rain
  let rainfall_estimate :=
    if rainfall_estimate0 < 1 then
      if w.humidity > 85 ∧ w.pressure < 1005 then d.u_norain else rainfall_estimate0
    else rainfall_estimate0
  let humidity := w.humidity
  let river_level := max 0 (5 + rainfall_estimate / 100 + d.u_river)
  let soil_moisture := max 0 (min 100 (humidity * 0.4 + rainfall_estimate / 5 + d.n_soil))
  [("rainfall", round2 rainfall_estimate),
   ("river_level", round2 river_level),
   ("humidity", round2 humidity),
   ("month", (month : ℚ)),
   ("wind_speed", round2 w.wind_speed),
   ("temperature", round2 w.temperature),
   ("soil_moisture", round2 soil_moisture),
   ("elevation", round2 d.u_elev),
   ("drainage_density", round2 d.u_drain),
   ("land_use_index", round2 d.u_land)]

/-- backend/predictor.py, transform_to_features_cyclone. -/
def transform_to_features_cyclone (w : WeatherObservation) (d : CycloneDraws)
    (month : ℕ) : FeatureVector :=
  let wind_speed := w.wind_speed * 1.5
  let pressure := w.pressure
  let rainfall0 := w.rainfall_1h * d.u_rain
  let rainfall := if rainfall0 < 1 ∧ pressure < 1000 then d.u_norain else rainfall0
  let sea_surface_temp := w.temperature + d.u_sst
  [("wind_speed", round2 wind_speed),
   ("pressure", round2 pressure),
   ("sea_surface_temp", round2 sea_surface_temp),
   ("rainfall", round2 rainfall),
   ("distance_to_coast", round2 d.u_dist),
   ("system_movement_speed", round2 d.u_move),
   ("humidity", round2 w.humidity),
   ("ocean_heat_content", round2 d.u_ohc),
   ("month", (month : ℚ)),
   ("elevation", round2 d.u_elev)]

/-- backend/predictor.py, transform_to_features_heatwave.  The weather dict
produced by get_weather_data never contains a cloud_cover key, so
weather_data.get of it always yields the np.random.uniform(0, 30) default. -/
def transform_to_features_heatwave (w : WeatherObservation) (d : HeatwaveDraws)
    (month : ℕ) : FeatureVector :=
  let max_temp := w.temperature + d.u_maxt
  let humidity := w.humidity
  let heat_index :=
    if max_temp ≥ 27 ∧ humidity ≥ 40 then max_temp + (humidity - 40) * 0.1
    else max_temp
  let consecutive_hot_days : ℚ := if max_temp > 35 then (d.n_hotdays : ℚ) else 0
  let soil_moisture := d.u_soil
  let cloud_cover := d.u_cloud
  let temp_anomaly := max_temp - 30
  [("max_temperature", round2 max_temp),
   ("heat_index", round2 heat_index),
   ("humidity", round2 humidity),
   ("consecutive_hot_days", consecutive_hot_days),
   ("wind_speed", round2 w.wind_speed),
   ("soil_moisture", round2 soil_moisture),
   ("month", (month : ℚ)),
   ("cloud_cover", round2 cloud_cover),
   ("urban_heat_island_idx", round2 d.u_uhi),
   ("temp_anomaly", round2 temp_anomaly)]

/-- A hazard (disaster) type, the explicit selector of the hazard-specific
feature schema and model in backend/predictor.py. -/
inductive Disaster where
  | flood
  | cyclone
  | heatwave
deriving DecidableEq

/-- Classifier file name per disaster, from the `paths` table of
backend/predictor.py load_models, prefixed with the ml_model/saved_models
directory it is joined with. -/
def model_file : Disaster → String
  | .flood => "ml_model/saved_models/flood_model.pkl"
  | .cyclone => "ml_model/saved_models/cyclone_model.pkl"
  | .heatwave => "ml_model/saved_models/heatwave_model.pkl"

/-- Scaler file name per disaster, from the `paths` table of
backend/predictor.py load_models. -/
def scaler_file : Disaster → String
  | .flood => "ml_model/saved_models/scaler.pkl"
  | .cyclone => "ml_model/saved_models/cyclone_scaler.pkl"
  | .heatwave => "ml_model/saved_models/heatwave_scaler.pkl"

/-- backend/predictor.py, load_models: iterates over the three disasters
and, only when both the classifier file and the scaler file exist, adds the
loaded artifacts to the models and scalers dicts.  `file_exists` embeds
os.path.exists and `load` embeds joblib.load (as an opaque deserializer of
type α); the dicts are embedded as association lists in insertion order. -/
def load_models {α : Type} (file_exists : String → Bool) (load : String → α) :
    List (Disaster × α) × List (Disaster × α) :=
  let step := fun (acc : List (Disaster × α) × List (Disaster × α)) (d : Disaster) =>
    if file_exists (model_file d) && file_exists (scaler_file d) then
      (acc.1 ++ [(d, load (model_file d))], acc.2 ++ [(d, load (scaler_file d))])
    else acc
  List.foldl step ([], []) [Disaster.flood, Disaster.cyclone, Disaster.heatwave]

/-- app.py, load_model: loads the flood model and scaler from models/;
a FileNotFoundError is caught and the process is stopped (st.stop), which
is embedded as returning `none`. -/
def load_model {α : Type} (file_exists : String → Bool) (load : String → α) :
    Option (α × α) :=
  if file_exists "models/flood_model.pkl" && file_exists "models/scaler.pkl" then
    some (load "models/flood_model.pkl", load "models/scaler.pkl")
  else none

/-- Modelled from the spec: the pre-trained classifier artifact (the pickled
scikit-learn ensemble model saved by the trainers) is not part of src/.  Per
the Risk Classifier Adapter contract of the spec it yields, for any input row,
"a 4-element probability distribution" (predict_proba): the entries are
non-negative and sum to exactly 1. -/
structure Model where
  predict_proba : List ℚ → Fin 4 → ℚ
  proba_nonneg : ∀ x i, 0 ≤ predict_proba x i
  proba_sum : ∀ x, predict_proba x 0 + predict_proba x 1 + predict_proba x 2
      + predict_proba x 3 = 1

/-- One step of the left-to-right scan of numpy argmax: keep the current best
index unless the candidate is strictly larger. -/
def argStep (p : Fin 4 → ℚ) (best i : Fin 4) : Fin 4 :=
  if p best < p i then i else best

/-- numpy argmax over a 4-element vector: the first index attaining the
maximum. -/
def argmax4 (p : Fin 4 → ℚ) : Fin 4 :=
  argStep p (argStep p (argStep p 0 1) 2) 3

/-- Modelled from the spec: model.predict of the artifact, "take the
arg-max as the predicted class" over the same probability distribution
that predict_proba reports for the row. -/
def Model.predict (m : Model) (x : List ℚ) : Fin 4 :=
  argmax4 (m.predict_proba x)

/-- Modelled from the spec: the fitted feature scaler artifact, "a
deterministic affine transform" applied to the reordered feature row;
kept opaque as a function on rows since only determinism matters here. -/
structure Scaler where
  transform : List ℚ → List ℚ

/-- One entry of the risk_labels table of frontend/translations.py. -/
structure RiskLabel where
  label : String
  title : String
  message : String
deriving DecidableEq

/-- The pipeline-relevant part of one language entry of TRANSLATIONS in
frontend/translations.py: risk_labels, risk_actions and prob_labels (the
remaining keys are UI-only text that predict_risk never reads). -/
structure Translation where
  risk_labels : Fin 4 → RiskLabel
  risk_actions : Fin 4 → List String
  prob_labels : List String

/-- frontend/translations.py, the en entry of TRANSLATIONS (pipeline-relevant keys). -/
def translationEn : Translation where
  risk_labels :=
    ![{ label := "Safe", title := "All Clear",
        message := "No immediate threat detected. Conditions are normal." },
      { label := "Warning", title := "Stay Alert",
        message := "Elevated risk conditions detected. Monitor closely." },
      { label := "High Risk", title := "Take Action Now",
        message := "Significant risk likely. Take precautions immediately!" },
      { label := "Critical", title := "SEVERE ALERT",
        message := "SEVERE HAZARD IMMINENT! Take extreme precautions or evacuate!" }]
  risk_actions :=
    ![["📰 Stay updated with weather news", "📋 Review emergency preparedness plan",
       "🎒 Keep emergency kit accessible", "😊 Enjoy your day safely"],
      ["🧰 Prepare emergency supplies", "🔋 Charge all devices",
       "🏔️ Avoid risky areas", "📱 Monitor local weather updates",
       "📄 Secure important documents"],
      ["📦 Secure valuables", "🚪 Prepare contingency plan",
       "⚡ Be ready for power outages", "🏔️ Stay in safe structures",
       "🚫 Avoid unnecessary travel", "🧰 Keep emergency supplies ready"],
      ["🆘 SEEK IMMEDIATE SAFETY", "📞 Call emergency services: 112",
       "🚫 Do NOT venture outside", "🏢 Stay in fortified structures",
       "🏳️ Signal for help if stranded", "🗺️ Follow official instructions"]]
  prob_labels := ["Safe", "Warning", "High Risk", "Critical"]

/-- frontend/translations.py, the hi entry of TRANSLATIONS (pipeline-relevant keys). -/
def translationHi : Translation where
  risk_labels :=
    ![{ label := "सुरक्षित", title := "सब ठीक है",
        message := "कोई खतरा नहीं। स्थितियाँ सामान्य हैं।" },
      { label := "चेतावनी", title := "सतर्क रहें",
        message := "जोखिम का पता चला। स्थिति पर नज़र रखें।" },
      { label := "उच्च जोखिम", title := "अभी कार्रवाई करें",
        message := "भारी जोखिम की संभावना। तुरंत सावधानी बरतें!" },
      { label := "गंभीर", title := "गंभीर अलर्ट",
        message := "गंभीर खतरा आसन्न! अत्यंत सावधानी बरतें या सुरक्षित स्थान पर जाएँ!" }]
  risk_actions :=
    ![["📰 मौसम समाचार से अपडेट रहें", "📋 आपातकालीन तैयारी योजना की समीक्षा करें",
       "🎒 आपातकालीन किट तैयार रखें", "😊 सुरक्षित रूप से अपने दिन का आनंद लें"],
      ["🧰 आपातकालीन आपूर्ति तैयार करें", "🔋 सभी उपकरण चार्ज करें",
       "🏔️ जोखिम वाले इलाकों से बचें", "📱 स्थानीय मौसम अपडेट देखें",
       "📄 महत्वपूर्ण दस्तावेज़ सुरक्षित करें"],
      ["📦 कीमती सामान सुरक्षित करें", "🚪 आकस्मिक योजना तैयार रखें",
       "⚡ बिजली कटौती के लिए तैयार रहें", "🏔️ सुरक्षित संरचनाओं में रहें",
       "🚫 अनावश्यक यात्रा से बचें", "🧰 आपातकालीन आपूर्ति तैयार रखें"],
      ["🆘 तत्काल सुरक्षा प्राप्त करें", "📞 आपातकालीन सेवाएं कॉल करें: 112",
       "🚫 बाहर न निकलें", "🏢 मजबूत संरचनाओं में रहें",
       "🏳️ फंसे हों तो मदद के लिए संकेत दें", "🗺️ आधिकारिक निर्देशों का पालन करें"]]
  prob_labels := ["सुरक्षित", "चेतावनी", "उच्च जोखिम", "गंभीर"]

/-- frontend/translations.py, TRANSLATIONS: a dict keyed by language code. -/
def TRANSLATIONS : List (String × Translation) :=
  [("en", translationEn), ("hi", translationHi)]

/-- An empty bundle; only used as the (unreachable for TRANSLATIONS, which
always contains the key "en") total-function default of the dict fallback. -/
def emptyTranslation : Translation where
  risk_labels := fun _ => { label := "", title := "", message := "" }
  risk_actions := fun _ => []
  prob_labels := []

/-- Python translations.get(lang, default en entry): look up the language,
falling back to the "en" entry. -/
def translationsGet (ts : List (String × Translation)) (lang : String) : Translation :=
  match List.lookup lang ts with
  | some tr => tr
  | none => (List.lookup "en" ts).getD emptyTranslation

/-- backend/predictor.py, predict_risk: the hard-coded per-hazard training
column order used to reorder the feature dict before scaling. -/
def feature_names : Disaster → List String
  | .flood => ["rainfall", "river_level", "humidity", "month", "wind_speed",
               "temperature", "soil_moisture", "elevation", "drainage_density",
               "land_use_index"]
  | .cyclone => ["wind_speed", "pressure", "sea_surface_temp", "rainfall",
                 "distance_to_coast", "system_movement_speed", "humidity",
                 "ocean_heat_content", "month", "elevation"]
  | .heatwave => ["max_temperature", "heat_index", "humidity", "consecutive_hot_days",
                  "wind_speed", "soil_moisture", "month", "cloud_cover",
                  "urban_heat_island_idx", "temp_anomaly"]

/-- pd.DataFrame([features])[cols]: the single row obtained by reading the
feature dict in the hazard-specific training column order. -/
def features_df (fv : FeatureVector) (d : Disaster) : List ℚ :=
  (feature_names d).map (fun c => fvGet fv c)

/-- backend/predictor.py, predict_risk: color_map. -/
def color_map : Fin 4 → String :=
  !["#10b981", "#f59e0b", "#f97316", "#ef4444"]

/-- backend/predictor.py, predict_risk: gradient_map. -/
def gradient_map : Fin 4 → String :=
  !["linear-gradient(135deg, #0f766e, #10b981)",
    "linear-gradient(135deg, #d97706, #f59e0b)",
    "linear-gradient(135deg, #ea580c, #f97316)",
    "linear-gradient(135deg, #dc2626, #ef4444)"]

/-- backend/predictor.py, predict_risk: emoji_map. -/
def emoji_map : Fin 4 → String :=
  !["✅", "⚠️", "🚨", "🆘"]

/-- The RiskAssessment bundle returned by backend/predictor.py predict_risk. -/
structure RiskResult where
  risk_level : ℕ
  probability : ℚ
  all_probs : List (String × ℚ)
  label : String
  title : String
  message : String
  actions : List String
  color : String
  gradient : String
  emoji : String

/-- The Risk Descriptor Mapper tail of backend/predictor.py predict_risk:
given the predicted class and its probability row, assemble the localized
bundle from the translation tables and the class-keyed maps. -/
def describe_risk (ts : List (String × Translation)) (lang : String)
    (risk_level : Fin 4) (probabilities : Fin 4 → ℚ) : RiskResult :=
  let tr := translationsGet ts lang
  let risk_info := tr.risk_labels risk_level
  { risk_level := risk_level.val
    probability := probabilities risk_level
    all_probs := tr.prob_labels.zip
      [probabilities 0, probabilities 1, probabilities 2, probabilities 3]
    label := risk_info.label
    title := risk_info.title
    message := risk_info.message
    actions := tr.risk_actions risk_level
    color := color_map risk_level
    gradient := gradient_map risk_level
    emoji := emoji_map risk_level }

/-- backend/predictor.py, predict_risk: reorder the feature dict into the
hazard-specific training column order, scale, predict the class and its
probability row, and map the class to the localized bundle. -/
def predict_risk (features : FeatureVector) (model : Model) (scaler : Scaler)
    (disaster_type : Disaster) (ts : List (String × Translation)) (lang : String) :
    RiskResult :=
  let features_scaled := scaler.transform (features_df features disaster_type)
  let risk_level := model.predict features_scaled
  let probabilities := model.predict_proba features_scaled
  describe_risk ts lang risk_level probabilities

/-- The probability row the adapter computes for a feature dict: the
predict_proba of the artifact on the scaled, reordered row. -/
def adapter_probs (features : FeatureVector) (model : Model) (scaler : Scaler)
    (disaster_type : Disaster) : Fin 4 → ℚ :=
  model.predict_proba (scaler.transform (features_df features disaster_type))

/-- The flood request pipeline once weather data is available: synthesize
features from the observation and classify (app.py main / the predictor
backend with disaster_type flood). -/
def flood_pipeline (model : Model) (scaler : Scaler) (w : WeatherObservation)
    (d : FloodDraws) (month : ℕ) (lang : String) : RiskResult :=
  predict_risk (transform_to_features_flood w d month) model scaler
    Disaster.flood TRANSLATIONS lang

/-- app.py, main, prediction branch: fetch weather; when the fetcher
returns None show an error and produce nothing, otherwise transform to
features and predict flood risk. -/
def main_predict (model : Model) (scaler : Scaler) (resp : Option WeatherResponse)
    (d : FloodDraws) (month : ℕ) (lang : String) : Option RiskResult :=
  match get_weather_data resp with
  | none => none
  | some w => some (flood_pipeline model scaler w d month lang)

theorem argStep_le (p : Fin 4 → ℚ) (b i : Fin 4) :
    p b ≤ p (argStep p b i) ∧ p i ≤ p (argStep p b i) := by
  unfold argStep
  split_ifs with h
  · exact ⟨le_of_lt h, le_refl _⟩
  · exact ⟨le_refl _, le_of_not_lt h⟩

theorem le_argmax4 (p : Fin 4 → ℚ) (i : Fin 4) : p i ≤ p (argmax4 p) := by
  have h1 := argStep_le p 0 1
  have h2 := argStep_le p (argStep p 0 1) 2
  have h3 := argStep_le p (argStep p (argStep p 0 1) 2) 3
  unfold argmax4
  fin_cases i
  · exact le_trans h1.1 (le_trans h2.1 h3.1)
  · exact le_trans h1.2 (le_trans h2.1 h3.1)
  · exact le_trans h2.2 h3.1
  · exact h3.2

/-- C1: the claim that a missing classifier or scaler file is fatal and
that load_models always returns both artifacts for every hazard is false:
with no artifact files present at all, load_models still returns normally
and its models dict has no entry for flood. -/
theorem C1_counterexample :
    ((load_models (fun _ => false) (fun _ => (0 : ℕ))).1.lookup Disaster.flood).isSome
      = false := by
  rfl

/-- C1 (amended): load_models does not treat a missing artifact as fatal;
it returns dicts that contain a hazard type exactly when both the
classifier file and the scaler file for it exist, silently omitting the
others.  Only the flood-only load_model of app.py refuses to proceed (st.stop)
exactly when one of its two artifact files is missing. -/
theorem C1_load_models_presence {α : Type} (fe : String → Bool) (load : String → α)
    (d : Disaster) :
    (((load_models fe load).1.lookup d).isSome
        = (fe (model_file d) && fe (scaler_file d))) ∧
    (((load_models fe load).2.lookup d).isSome
        = (fe (model_file d) && fe (scaler_file d))) ∧
    ((load_model fe load).isSome
        = (fe "models/flood_model.pkl" && fe "models/scaler.pkl")) := by
  cases d <;>
    cases hf : (fe "ml_model/saved_models/flood_model.pkl"
        && fe "ml_model/saved_models/scaler.pkl") <;>
    cases hc : (fe "ml_model/saved_models/cyclone_model.pkl"
        && fe "ml_model/saved_models/cyclone_scaler.pkl") <;>
    cases hh : (fe "ml_model/saved_models/heatwave_model.pkl"
        && fe "ml_model/saved_models/heatwave_scaler.pkl") <;>
    cases ha : (fe "models/flood_model.pkl" && fe "models/scaler.pkl") <;>
      simp only [load_models, load_model, model_file, scaler_file, List.foldl_cons,
        List.foldl_nil, hf, hc, hh, ha] <;>
      exact ⟨rfl, rfl, rfl⟩

/-- C2: the hard-coded training column order of the Risk Classifier Adapter
is exactly the hazard-specific 10-name list asserted by the spec, for each
of the three hazard types. -/
theorem C2_training_column_order :
    feature_names Disaster.flood
        = ["rainfall", "river_level", "humidity", "month", "wind_speed",
           "temperature", "soil_moisture", "elevation", "drainage_density",
           "land_use_index"] ∧
    feature_names Disaster.cyclone
        = ["wind_speed", "pressure", "sea_surface_temp", "rainfall",
           "distance_to_coast", "system_movement_speed", "humidity",
           "ocean_heat_content", "month", "elevation"] ∧
    feature_names Disaster.heatwave
        = ["max_temperature", "heat_index", "humidity", "consecutive_hot_days",
           "wind_speed", "soil_moisture", "month", "cloud_cover",
           "urban_heat_island_idx", "temp_anomaly"] ∧
    (feature_names Disaster.flood).length = 10 ∧
    (feature_names Disaster.cyclone).length = 10 ∧
    (feature_names Disaster.heatwave).length = 10 := by
  exact ⟨rfl, rfl, rfl, rfl, rfl, rfl⟩

/-- C3: for every feature vector, the risk_level returned by the adapter is an
integer in {0,1,2,3}, its probability 4-tuple sums to 1 within 1e-6, and
the (first) index of the maximum probability is the returned risk_level. -/
theorem C3_adapter_distribution (features : FeatureVector) (model : Model)
    (scaler : Scaler) (d : Disaster) (ts : List (String × Translation))
    (lang : String) :
    (predict_risk features model scaler d ts lang).risk_level < 4 ∧
    |adapter_probs features model scaler d 0 + adapter_probs features model scaler d 1
        + adapter_probs features model scaler d 2 + adapter_probs features model scaler d 3
        - 1| ≤ 1 / 1000000 ∧
    ∃ j : Fin 4, (predict_risk features model scaler d ts lang).risk_level = j.val ∧
      argmax4 (adapter_probs features model scaler d) = j ∧
      ∀ i : Fin 4, adapter_probs features model scaler d i
        ≤ adapter_probs features model scaler d j := by
  refine ⟨(model.predict (scaler.transform (features_df features d))).isLt, ?_, ?_⟩
  · unfold adapter_probs
    rw [model.proba_sum]
    norm_num
  · exact ⟨argmax4 (adapter_probs features model scaler d), rfl, rfl,
      fun i => le_argmax4 _ i⟩

theorem translationsGet_unknown (lang : String) (h1 : lang ≠ "en") (h2 : lang ≠ "hi") :
    translationsGet TRANSLATIONS lang = translationEn := by
  have e1 : (lang == "en") = false := beq_eq_false_iff_ne.mpr h1
  have e2 : (lang == "hi") = false := beq_eq_false_iff_ne.mpr h2
  have hl : List.lookup lang TRANSLATIONS = none := by
    simp [TRANSLATIONS, List.lookup, e1, e2]
  unfold translationsGet
  rw [hl]
  rfl

theorem translationsGet_cases (lang : String) :
    translationsGet TRANSLATIONS lang = translationEn ∨
    translationsGet TRANSLATIONS lang = translationHi := by
  rcases eq_or_ne lang "en" with h | h
  · left; subst h; rfl
  · rcases eq_or_ne lang "hi" with h2 | h2
    · right; subst h2; rfl
    · exact Or.inl (translationsGet_unknown lang h h2)

/-- C6: the Risk Descriptor Mapper always returns a non-empty action list
and a non-empty color string (in particular for en and hi), and for every
language outside {en, hi} it returns exactly the bundle it returns for
"en", without raising. -/
theorem C6_mapper_bundle (lang : String) (c : Fin 4) (p : Fin 4 → ℚ) :
    ((describe_risk TRANSLATIONS lang c p).actions ≠ [] ∧
     (describe_risk TRANSLATIONS lang c p).color ≠ "") ∧
    (lang ≠ "en" → lang ≠ "hi" →
      describe_risk TRANSLATIONS lang c p = describe_risk TRANSLATIONS "en" c p) := by
  constructor
  · have hact : (describe_risk TRANSLATIONS lang c p).actions
        = (translationsGet TRANSLATIONS lang).risk_actions c := rfl
    have hcol : (describe_risk TRANSLATIONS lang c p).color = color_map c := rfl
    rw [hact, hcol]
    rcases translationsGet_cases lang with h | h <;> rw [h] <;> fin_cases c <;>
      exact ⟨by decide, by decide⟩
  · intro h1 h2
    unfold describe_risk
    rw [translationsGet_unknown lang h1 h2]
    rfl

/-- C6 witness: an unknown language ("fr") at class 2 yields a non-empty
bundle identical to the English one. -/
theorem C6_mapper_bundle_witness :
    ((describe_risk TRANSLATIONS "fr" 2 (fun _ => (1 : ℚ) / 4)).actions ≠ [] ∧
     (describe_risk TRANSLATIONS "fr" 2 (fun _ => (1 : ℚ) / 4)).color ≠ "") ∧
    describe_risk TRANSLATIONS "fr" 2 (fun _ => (1 : ℚ) / 4)
      = describe_risk TRANSLATIONS "en" 2 (fun _ => (1 : ℚ) / 4) :=
  ⟨(C6_mapper_bundle "fr" 2 _).1,
   (C6_mapper_bundle "fr" 2 _).2 (by decide) (by decide)⟩

/-- C8: the claim that action lists are strictly longer for strictly higher
risk classes is false: for English, classes 2 and 3 both carry 6 actions,
so the class-3 list is not longer than the class-2 list. -/
theorem C8_counterexample :
    ¬ (((translationsGet TRANSLATIONS "en").risk_actions 3).length
        > ((translationsGet TRANSLATIONS "en").risk_actions 2).length) := by
  decide

/-- C8 (amended): for every language (en, hi, and any fallback), the
recommended-action list length is monotonically non-decreasing in the risk
class (4, 5, 6, 6 actions for classes 0..3), but not strictly increasing. -/
theorem C8_actions_monotone (lang : String) (c1 c2 : Fin 4) (h : c1 ≤ c2) :
    ((translationsGet TRANSLATIONS lang).risk_actions c1).length
      ≤ ((translationsGet TRANSLATIONS lang).risk_actions c2).length := by
  rcases translationsGet_cases lang with hl | hl <;> rw [hl] <;>
    fin_cases c1 <;> fin_cases c2 <;> revert h <;> decide

/-- C8 witness: classes 1 ≤ 2 in English have action lists of
non-decreasing length. -/
theorem C8_actions_monotone_witness :
    (1 : Fin 4) ≤ 2 ∧
    ((translationsGet TRANSLATIONS "en").risk_actions 1).length
      ≤ ((translationsGet TRANSLATIONS "en").risk_actions 2).length :=
  ⟨by decide, C8_actions_monotone "en" 1 2 (by decide)⟩

/-- The constant uniform classifier: the same distribution on every row. -/
def constModel : Model where
  predict_proba := fun _ _ => 1 / 4
  proba_nonneg := by intro x i; norm_num
  proba_sum := by intro x; norm_num

/-- A classifier whose predicted class depends only on the month column
(index 3 of the flood training column order). -/
def monthModel : Model where
  predict_proba := fun x i =>
    if 3 < x.getD 3 0 then (if i.val = 3 then 1 else 0)
    else (if i.val = 0 then 1 else 0)
  proba_nonneg := by
    intro x i
    dsimp only
    split_ifs <;> norm_num
  proba_sum := by
    intro x
    dsimp only
    by_cases h : 3 < x.getD 3 0
    · simp only [if_pos h]
      show (0 : ℚ) + 0 + 0 + 1 = 1
      norm_num
    · simp only [if_neg h]
      show (1 : ℚ) + 0 + 0 + 0 = 1
      norm_num

/-- The identity scaler: an affine transform with mean 0 and scale 1. -/
def idScaler : Scaler where
  transform := fun x => x

/-- A fixed mild weather observation used as concrete input. -/
def obsMild : WeatherObservation where
  city := "Testville"
  temperature := 28
  humidity := 60
  pressure := 1013
  wind_speed := 10
  rainfall_1h := 0
  description := "clear sky"
  icon := "01d"

/-- Fixed synthesizer draw outcomes, all at the middle of their ranges. -/
def drawsMid : FloodDraws where
  u_rain := 10
  u_norain := 30
  u_river := 0
  n_soil := 0
  u_elev := 100
  u_drain := 5
  u_land := 6

/-- C7: the claim that the classification outcome depends only on (model,
scaler, observation, synthesizer randomness seed) is false: with all four
fixed, running the pipeline in January and in June yields different risk
levels, because the wall-clock calendar month is also an input (it is read
inside feature synthesis and fed to the classifier as the month feature). -/
theorem C7_counterexample :
    (flood_pipeline monthModel idScaler obsMild drawsMid 1 "en").risk_level ≠
    (flood_pipeline monthModel idScaler obsMild drawsMid 6 "en").risk_level := by
  decide

/-- C7 (amended): for fixed model, scaler, observation, synthesizer draw
outcomes AND calendar month, classification is deterministic: two
executions on equal inputs return the same risk_level. -/
theorem C7_deterministic (model : Model) (scaler : Scaler)
    (w w₂ : WeatherObservation) (d d₂ : FloodDraws) (month month₂ : ℕ)
    (lang : String) (hw : w = w₂) (hd : d = d₂) (hm : month = month₂) :
    (flood_pipeline model scaler w d month lang).risk_level
      = (flood_pipeline model scaler w₂ d₂ month₂ lang).risk_level := by
  subst hw
  subst hd
  subst hm
  rfl

/-- C7 witness: two runs on the same concrete inputs agree. -/
theorem C7_deterministic_witness :
    obsMild = obsMild ∧ drawsMid = drawsMid ∧ (7 : ℕ) = 7 ∧
    (flood_pipeline constModel idScaler obsMild drawsMid 7 "en").risk_level
      = (flood_pipeline constModel idScaler obsMild drawsMid 7 "en").risk_level :=
  ⟨rfl, rfl, rfl,
   C7_deterministic constModel idScaler obsMild obsMild drawsMid drawsMid 7 7 "en"
     rfl rfl rfl⟩

theorem round2_clamp_nonneg (x : ℚ) : 0 ≤ round2 (max 0 x) :=
  round2_nonneg (le_max_left 0 x)

theorem round2_clamp_le_hundred (x : ℚ) : round2 (max 0 (min 100 x)) ≤ 100 :=
  round2_le_hundred (max_le (by norm_num) (min_le_left _ _))

/-- A WeatherObservation within the documented physical ranges:
humidity in [0,100], wind speed and 1h rainfall non-negative. -/
def validObservation (w : WeatherObservation) : Prop :=
  0 ≤ w.humidity ∧ w.humidity ≤ 100 ∧ 0 ≤ w.wind_speed ∧ 0 ≤ w.rainfall_1h

/-- All flood draws inside the documented distribution supports of the source
(np.random.uniform(a, b) yields values in [a, b]; the normal soil-moisture
noise is unbounded and deliberately unconstrained). -/
def floodDrawsInRange (d : FloodDraws) : Prop :=
  (8 ≤ d.u_rain ∧ d.u_rain ≤ 15) ∧ (20 ≤ d.u_norain ∧ d.u_norain ≤ 50) ∧
  (-1 ≤ d.u_river ∧ d.u_river ≤ 2) ∧ (50 ≤ d.u_elev ∧ d.u_elev ≤ 300) ∧
  (3 ≤ d.u_drain ∧ d.u_drain ≤ 7) ∧ (5 ≤ d.u_land ∧ d.u_land ≤ 8)

/-- All cyclone draws inside the documented distribution supports of the source. -/
def cycloneDrawsInRange (d : CycloneDraws) : Prop :=
  (8 ≤ d.u_rain ∧ d.u_rain ≤ 15) ∧ (10 ≤ d.u_norain ∧ d.u_norain ≤ 80) ∧
  (10 ≤ d.u_dist ∧ d.u_dist ≤ 200) ∧ (10 ≤ d.u_move ∧ d.u_move ≤ 25) ∧
  (-2 ≤ d.u_sst ∧ d.u_sst ≤ 2) ∧ (30 ≤ d.u_ohc ∧ d.u_ohc ≤ 90) ∧
  (5 ≤ d.u_elev ∧ d.u_elev ≤ 50)

/-- All heatwave draws inside the documented distribution supports of the source
(np.random.randint(1, 5) yields an integer in [1, 4]). -/
def heatwaveDrawsInRange (d : HeatwaveDraws) : Prop :=
  (0 ≤ d.u_maxt ∧ d.u_maxt ≤ 4) ∧ (1 ≤ d.n_hotdays ∧ d.n_hotdays ≤ 4) ∧
  (10 ≤ d.u_soil ∧ d.u_soil ≤ 40) ∧ (0 ≤ d.u_cloud ∧ d.u_cloud ≤ 30) ∧
  (5 ≤ d.u_uhi ∧ d.u_uhi ≤ 10)

/-- C4: for every valid observation and every outcome of the internal
random draws (within their documented distribution supports; the normal
soil noise unconstrained), the synthesized features of each hazard keep every
humidity and soil-moisture field in [0,100] and every river-level and
elevation field non-negative. -/
theorem C4_synthesizer_bounds (w : WeatherObservation) (df : FloodDraws)
    (dc : CycloneDraws) (dh : HeatwaveDraws) (month : ℕ)
    (hobs : validObservation w) (hdf : floodDrawsInRange df)
    (hdc : cycloneDrawsInRange dc) (hdh : heatwaveDrawsInRange dh) :
    (0 ≤ fvGet (transform_to_features_flood w df month) "humidity" ∧
     fvGet (transform_to_features_flood w df month) "humidity" ≤ 100 ∧
     0 ≤ fvGet (transform_to_features_flood w df month) "soil_moisture" ∧
     fvGet (transform_to_features_flood w df month) "soil_moisture" ≤ 100 ∧
     0 ≤ fvGet (transform_to_features_flood w df month) "river_level" ∧
     0 ≤ fvGet (transform_to_features_flood w df month) "elevation") ∧
    (0 ≤ fvGet (transform_to_features_cyclone w dc month) "humidity" ∧
     fvGet (transform_to_features_cyclone w dc month) "humidity" ≤ 100 ∧
     0 ≤ fvGet (transform_to_features_cyclone w dc month) "elevation") ∧
    (0 ≤ fvGet (transform_to_features_heatwave w dh month) "humidity" ∧
     fvGet (transform_to_features_heatwave w dh month) "humidity" ≤ 100 ∧
     0 ≤ fvGet (transform_to_features_heatwave w dh month) "soil_moisture" ∧
     fvGet (transform_to_features_heatwave w dh month) "soil_moisture" ≤ 100) := by
  obtain ⟨hh0, hh1, _, _⟩ := hobs
  obtain ⟨_, _, _, ⟨hfe, _⟩, _, _⟩ := hdf
  obtain ⟨_, _, _, _, _, _, ⟨hce, _⟩⟩ := hdc
  obtain ⟨_, _, ⟨hs0, hs1⟩, _, _⟩ := hdh
  refine ⟨⟨?_, ?_, ?_, ?_, ?_, ?_⟩, ⟨?_, ?_, ?_⟩, ⟨?_, ?_, ?_, ?_⟩⟩
  · exact round2_nonneg hh0
  · exact round2_le_hundred hh1
  · exact round2_clamp_nonneg _
  · exact round2_clamp_le_hundred _
  · exact round2_clamp_nonneg _
  · exact round2_nonneg (by linarith)
  · exact round2_nonneg hh0
  · exact round2_le_hundred hh1
  · exact round2_nonneg (by linarith)
  · exact round2_nonneg hh0
  · exact round2_le_hundred hh1
  · exact round2_nonneg (by linarith)
  · exact round2_le_hundred (by linarith)

/-- Fixed cyclone draw outcomes, all at the middle of their ranges. -/
def cycDrawsMid : CycloneDraws where
  u_rain := 10
  u_norain := 40
  u_dist := 100
  u_move := 15
  u_sst := 0
  u_ohc := 60
  u_elev := 20

/-- Fixed heatwave draw outcomes, all at the middle of their ranges. -/
def heatDrawsMid : HeatwaveDraws where
  u_maxt := 2
  n_hotdays := 2
  u_soil := 25
  u_cloud := 10
  u_uhi := 7

/-- C4 witness: the bounds hold on a concrete valid observation and
concrete in-range draws. -/
theorem C4_synthesizer_bounds_witness :
    validObservation obsMild ∧ floodDrawsInRange drawsMid ∧
    cycloneDrawsInRange cycDrawsMid ∧ heatwaveDrawsInRange heatDrawsMid ∧
    ((0 ≤ fvGet (transform_to_features_flood obsMild drawsMid 7) "humidity" ∧
      fvGet (transform_to_features_flood obsMild drawsMid 7) "humidity" ≤ 100 ∧
      0 ≤ fvGet (transform_to_features_flood obsMild drawsMid 7) "soil_moisture" ∧
      fvGet (transform_to_features_flood obsMild drawsMid 7) "soil_moisture" ≤ 100 ∧
      0 ≤ fvGet (transform_to_features_flood obsMild drawsMid 7) "river_level" ∧
      0 ≤ fvGet (transform_to_features_flood obsMild drawsMid 7) "elevation") ∧
     (0 ≤ fvGet (transform_to_features_cyclone obsMild cycDrawsMid 7) "humidity" ∧
      fvGet (transform_to_features_cyclone obsMild cycDrawsMid 7) "humidity" ≤ 100 ∧
      0 ≤ fvGet (transform_to_features_cyclone obsMild cycDrawsMid 7) "elevation") ∧
     (0 ≤ fvGet (transform_to_features_heatwave obsMild heatDrawsMid 7) "humidity" ∧
      fvGet (transform_to_features_heatwave obsMild heatDrawsMid 7) "humidity" ≤ 100 ∧
      0 ≤ fvGet (transform_to_features_heatwave obsMild heatDrawsMid 7) "soil_moisture" ∧
      fvGet (transform_to_features_heatwave obsMild heatDrawsMid 7) "soil_moisture" ≤ 100)) :=
  ⟨by norm_num [validObservation, obsMild],
   by norm_num [floodDrawsInRange, drawsMid],
   by norm_num [cycloneDrawsInRange, cycDrawsMid],
   by norm_num [heatwaveDrawsInRange, heatDrawsMid],
   C4_synthesizer_bounds obsMild drawsMid cycDrawsMid heatDrawsMid 7
     (by norm_num [validObservation, obsMild])
     (by norm_num [floodDrawsInRange, drawsMid])
     (by norm_num [cycloneDrawsInRange, cycDrawsMid])
     (by norm_num [heatwaveDrawsInRange, heatDrawsMid])⟩

/-- A failed fetch: no response at all (network error, timeout, raised
exception), a non-success status, or a missing required payload field. -/
def fetchFailed (resp : Option WeatherResponse) : Prop :=
  resp = none ∨ ∃ r, resp = some r ∧
    (r.status ≠ 200 ∨ r.name = none ∨ r.main_temp = none ∨ r.main_humidity = none ∨
     r.main_pressure = none ∨ r.wind_speed = none ∨ r.weather0_description = none ∨
     r.weather0_icon = none)

/-- C5: every failure cause — no response, non-200 status, or any missing
expected payload field — makes the fetcher return the single sentinel None
(no cause distinction, no escaping exception), and the request pipeline
then produces no FeatureVector and no RiskAssessment. -/
theorem C5_fetch_failure_no_result (model : Model) (scaler : Scaler)
    (resp : Option WeatherResponse) (d : FloodDraws) (month : ℕ) (lang : String)
    (h : fetchFailed resp) :
    get_weather_data resp = none ∧
    main_predict model scaler resp d month lang = none := by
  have hnone : get_weather_data resp = none := by
    rcases h with rfl | ⟨r, rfl, hfail⟩
    · rfl
    · by_cases hst : r.status = 200
      · cases hn : r.name <;> cases ht : r.main_temp <;> cases hhu : r.main_humidity <;>
        cases hp : r.main_pressure <;> cases hw : r.wind_speed <;>
        cases hde : r.weather0_description <;> cases hic : r.weather0_icon <;>
          simp_all [get_weather_data]
      · simp [get_weather_data, hst]
  refine ⟨hnone, ?_⟩
  unfold main_predict
  rw [hnone]

/-- A failed response: HTTP 404 with an empty payload. -/
def respFail : WeatherResponse where
  status := 404
  name := none
  main_temp := none
  main_humidity := none
  main_pressure := none
  wind_speed := none
  rain_1h := none
  weather0_description := none
  weather0_icon := none

/-- C5 witness: a 404 response yields None from the fetcher and nothing
from the pipeline. -/
theorem C5_fetch_failure_no_result_witness :
    fetchFailed (some respFail) ∧
    get_weather_data (some respFail) = none ∧
    main_predict constModel idScaler (some respFail) drawsMid 1 "en" = none :=
  ⟨Or.inr ⟨respFail, rfl, Or.inl (by decide)⟩,
   C5_fetch_failure_no_result constModel idScaler (some respFail) drawsMid 1 "en"
     (Or.inr ⟨respFail, rfl, Or.inl (by decide)⟩)⟩

/-- C9: on every provider response the fetcher accepts, the returned
wind_speed of the returned observation is exactly the provider wind.speed times 3.6. -/
theorem C9_wind_conversion (r : WeatherResponse) (obs : WeatherObservation)
    (h : get_weather_data (some r) = some obs) :
    ∃ ws, r.wind_speed = some ws ∧ obs.wind_speed = ws * 3.6 := by
  by_cases hst : r.status = 200
  · cases hn : r.name <;> cases ht : r.main_temp <;> cases hhu : r.main_humidity <;>
    cases hp : r.main_pressure <;> cases hw : r.wind_speed <;>
    cases hde : r.weather0_description <;> cases hic : r.weather0_icon <;>
      simp_all [get_weather_data]
    subst h
    rfl
  · simp [get_weather_data, hst] at h

/-- A successful 200 response with all fields present. -/
def respOk : WeatherResponse where
  status := 200
  name := some "Testville"
  main_temp := some 28
  main_humidity := some 60
  main_pressure := some 1013
  wind_speed := some 10
  rain_1h := some 2
  weather0_description := some "clear sky"
  weather0_icon := some "01d"

/-- The observation get_weather_data builds from respOk. -/
def obsOk : WeatherObservation where
  city := "Testville"
  temperature := 28
  humidity := 60
  pressure := 1013
  wind_speed := (10 : ℚ) * 3.6
  rainfall_1h := 2
  description := "clear sky"
  icon := "01d"

/-- C9 witness: on a concrete accepted response with wind.speed 10 m/s the
returned wind speed is 10 × 3.6 km/h. -/
theorem C9_wind_conversion_witness :
    get_weather_data (some respOk) = some obsOk ∧
    ∃ ws, respOk.wind_speed = some ws ∧ obsOk.wind_speed = ws * 3.6 :=
  ⟨rfl, C9_wind_conversion respOk obsOk rfl⟩

/-- A 200 response carrying the six fields the claim lists as required
(name, main.temp, main.humidity, main.pressure, wind.speed,
weather[0].description) but no rain object and no weather[0].icon. -/
def respNoIcon : WeatherResponse where
  status := 200
  name := some "Testville"
  main_temp := some 28
  main_humidity := some 60
  main_pressure := some 1013
  wind_speed := some 10
  rain_1h := none
  weather0_description := some "clear sky"
  weather0_icon := none

/-- C10: the required-field list of the claim is incomplete: a response that
contains all six listed fields but lacks weather[0].icon (and the optional
rain object) is rejected by the fetcher — it returns None instead of an
observation with rainfall_1h = 0, because the code also reads
the weather[0].icon key. -/
theorem C10_counterexample :
    respNoIcon.status = 200 ∧ respNoIcon.name.isSome = true ∧
    respNoIcon.main_temp.isSome = true ∧ respNoIcon.main_humidity.isSome = true ∧
    respNoIcon.main_pressure.isSome = true ∧ respNoIcon.wind_speed.isSome = true ∧
    respNoIcon.weather0_description.isSome = true ∧ respNoIcon.rain_1h = none ∧
    get_weather_data (some respNoIcon) = none := by
  decide

/-- C10 (amended): a response containing every field the code requires —
the six of the claim plus weather[0].icon — but lacking the rain object still
succeeds, and the rainfall_1h of the returned observation is exactly 0. -/
theorem C10_rain_default (r : WeatherResponse) (n de ic : String) (t hu pr ws : ℚ)
    (hst : r.status = 200) (hn : r.name = some n) (ht : r.main_temp = some t)
    (hhu : r.main_humidity = some hu) (hp : r.main_pressure = some pr)
    (hw : r.wind_speed = some ws) (hde : r.weather0_description = some de)
    (hic : r.weather0_icon = some ic) (hrain : r.rain_1h = none) :
    ∃ obs, get_weather_data (some r) = some obs ∧ obs.rainfall_1h = 0 := by
  refine ⟨{ city := n, temperature := t, humidity := hu, pressure := pr,
            wind_speed := ws * 3.6, rainfall_1h := 0,
            description := de, icon := ic }, ?_, rfl⟩
  simp [get_weather_data, hst, hn, ht, hhu, hp, hw, hde, hic, hrain]

/-- A 200 response with all required fields present and rain absent. -/
def respNoRain : WeatherResponse where
  status := 200
  name := some "Testville"
  main_temp := some 28
  main_humidity := some 60
  main_pressure := some 1013
  wind_speed := some 10
  rain_1h := none
  weather0_description := some "clear sky"
  weather0_icon := some "01d"

/-- C10 witness: the rain-less but otherwise complete response succeeds
with rainfall_1h = 0. -/
theorem C10_rain_default_witness :
    respNoRain.status = 200 ∧ respNoRain.rain_1h = none ∧
    ∃ obs, get_weather_data (some respNoRain) = some obs ∧ obs.rainfall_1h = 0 :=
  ⟨rfl, rfl,
   C10_rain_default respNoRain "Testville" "clear sky" "01d" 28 60 1013 10
     rfl rfl rfl rfl rfl rfl rfl rfl rfl⟩
